import Mathlib

/-
Verification development for the my-backend repository (Go, Fiber + GORM).

The Go sources are shallowly embedded:
* Go `int` / `int64` become `Int` (the arithmetic performed here stays far
  from the 64-bit boundary for all bounded quantities; `/` on Go integers
  truncates toward zero and is embedded as `Int.tdiv`);
* Go `uint` identifiers become `Nat`;
* Go `float64` prices become `Rat`: the only operations the embedded code
  performs on prices are order comparisons against literals and field
  copies, on which the rational model agrees with IEEE doubles away from
  NaN (a NaN price makes `IsValid` false in Go and has no rational
  counterpart; no claim depends on it);
* `time.Time` timestamps become `Nat`, `gorm.DeletedAt` becomes
  `Option Nat` (`none` = NULL, i.e. not soft-deleted);
* fallible Go functions returning `(T, error)` become `Except String T`,
  carrying the literal error strings of the source;
* the GORM-managed database table of catalog items becomes a `List Manga`
  in insertion order, threaded explicitly through the repository and
  service functions together with the auto-increment key and clock values
  that GORM would supply.
-/

namespace MyBackend

/-- Go integer division: truncation toward zero (`Int.tdiv`), unlike
Lean's Euclidean `/`. -/
def goIntDiv (a b : Int) : Int := Int.tdiv a b

/-- PaginationRequest from internal/core/domain (pagination file):
fields Page and PageSize, both Go ints. -/
structure PaginationRequest where
  page : Int
  pageSize : Int
  deriving Repr, DecidableEq

/-- PaginationResponse from the same file: pagination metadata.
NextPage and PreviousPage are `*int` in Go, embedded as `Option Int`
(`none` = nil pointer, omitted from JSON). -/
structure PaginationResponse where
  currentPage : Int
  pageSize : Int
  totalItems : Int
  totalPages : Int
  hasNextPage : Bool
  hasPrevPage : Bool
  nextPage : Option Int
  previousPage : Option Int
  deriving Repr, DecidableEq

/-- PaginatedResult[T] from the same file: data plus metadata. -/
structure PaginatedResult (α : Type) where
  data : List α
  pagination : PaginationResponse
  deriving Repr, DecidableEq

/-- NewPaginationRequest: clamps page < 1 to 1 and pageSize outside
[1,100] to the default 10. -/
def NewPaginationRequest (page pageSize : Int) : PaginationRequest :=
  let page := if page < 1 then 1 else page
  let pageSize := if pageSize < 1 ∨ pageSize > 100 then 10 else pageSize
  { page := page, pageSize := pageSize }

/-- GetOffset: `(p.Page - 1) * p.PageSize`. -/
def PaginationRequest.GetOffset (p : PaginationRequest) : Int :=
  (p.page - 1) * p.pageSize

/-- GetLimit: returns the page size as limit. -/
def PaginationRequest.GetLimit (p : PaginationRequest) : Int :=
  p.pageSize

/-- NewPaginationResponse: `totalPages := (totalItems + pageSize - 1) / pageSize`
with Go division, flags from comparisons, next/previous pointers set only
under the corresponding flag. -/
def NewPaginationResponse (page pageSize totalItems : Int) : PaginationResponse :=
  let totalPages := goIntDiv (totalItems + pageSize - 1) pageSize
  let hasNextPage := decide (page < totalPages)
  let hasPrevPage := decide (page > 1)
  let nextPage : Option Int := if hasNextPage then some (page + 1) else none
  let previousPage : Option Int := if hasPrevPage then some (page - 1) else none
  { currentPage := page
    pageSize := pageSize
    totalItems := totalItems
    totalPages := totalPages
    hasNextPage := hasNextPage
    hasPrevPage := hasPrevPage
    nextPage := nextPage
    previousPage := previousPage }

/-- On nonnegative operands Go's truncating division agrees with Lean's
Euclidean division. -/
theorem goIntDiv_eq_ediv (a b : Int) (ha : 0 ≤ a) (hb : 0 < b) :
    goIntDiv a b = a / b := by
  unfold goIntDiv
  rw [Int.tdiv_eq_ediv ha (by omega)]

/-- The add-and-divide idiom computes the rational ceiling of t / s for
0 ≤ t and 1 ≤ s. -/
theorem goIntDiv_ceil (t s : Int) (ht : 0 ≤ t) (hs : 1 ≤ s) :
    goIntDiv (t + s - 1) s = ⌈(t : ℚ) / (s : ℚ)⌉ := by
  rw [goIntDiv_eq_ediv (t + s - 1) s (by omega) (by omega)]
  have hs0 : s ≠ 0 := by omega
  have hdm := Int.ediv_add_emod (t + s - 1) s
  have hr0 : 0 ≤ (t + s - 1) % s := Int.emod_nonneg (t + s - 1) hs0
  have hrs : (t + s - 1) % s < s := Int.emod_lt_of_pos (t + s - 1) (by omega)
  set q := (t + s - 1) / s with hq
  have hsq : (0 : ℚ) < (s : ℚ) := by exact_mod_cast (by omega : (0 : Int) < s)
  symm
  rw [Int.ceil_eq_iff]
  constructor
  · rw [lt_div_iff hsq]
    have h : (q - 1) * s < t := by nlinarith [hdm, hr0, hrs]
    have h2 : (((q - 1) * s : Int) : ℚ) < ((t : Int) : ℚ) := by exact_mod_cast h
    push_cast at h2
    linarith
  · rw [div_le_iff₀ hsq]
    have h : t ≤ q * s := by nlinarith [hdm, hr0, hrs]
    exact_mod_cast h

/-- C3: NewPaginationRequest is the identity on page ≥ 1 with pageSize in
[1,100]; it clamps page < 1 to 1 and pageSize outside [1,100] to 10; and
its result always satisfies page ≥ 1 and pageSize in [1,100]. -/
theorem C3_normalize_pagination (page pageSize : Int) :
    (1 ≤ page → 1 ≤ pageSize → pageSize ≤ 100 →
      NewPaginationRequest page pageSize = { page := page, pageSize := pageSize }) ∧
    (page < 1 → (NewPaginationRequest page pageSize).page = 1) ∧
    (pageSize < 1 ∨ 100 < pageSize → (NewPaginationRequest page pageSize).pageSize = 10) ∧
    1 ≤ (NewPaginationRequest page pageSize).page ∧
    1 ≤ (NewPaginationRequest page pageSize).pageSize ∧
    (NewPaginationRequest page pageSize).pageSize ≤ 100 := by
  unfold NewPaginationRequest
  dsimp only
  refine ⟨?_, ?_, ?_, ?_, ?_, ?_⟩ <;>
    split_ifs <;> simp_all <;> omega

/-- Closed instances of C3: an in-range pair passes through unchanged and
an out-of-range pair is clamped to the defaults. -/
theorem C3_normalize_pagination_witness :
    NewPaginationRequest 3 10 = { page := 3, pageSize := 10 } ∧
    (NewPaginationRequest 0 200).page = 1 ∧
    (NewPaginationRequest 0 200).pageSize = 10 :=
  ⟨(C3_normalize_pagination 3 10).1 (by decide) (by decide) (by decide),
   (C3_normalize_pagination 0 200).2.1 (by decide),
   (C3_normalize_pagination 0 200).2.2.1 (Or.inr (by decide))⟩

/-- C4: for a normalized request and nonnegative total, the response
metadata has totalPages = ceil(totalItems / pageSize) (0 for 0 items),
hasNextPage iff page < totalPages, hasPrevPage iff page > 1, and the
next/previous pointers are populated exactly when the corresponding flag
holds, with values page + 1 and page - 1. -/
theorem C4_build_response (page pageSize totalItems : Int)
    (hp : 1 ≤ page) (hs1 : 1 ≤ pageSize) (hs2 : pageSize ≤ 100) (ht : 0 ≤ totalItems) :
    (NewPaginationResponse page pageSize totalItems).totalPages
        = ⌈(totalItems : ℚ) / (pageSize : ℚ)⌉ ∧
    (totalItems = 0 → (NewPaginationResponse page pageSize totalItems).totalPages = 0) ∧
    (NewPaginationResponse page pageSize totalItems).hasNextPage
        = decide (page < (NewPaginationResponse page pageSize totalItems).totalPages) ∧
    (NewPaginationResponse page pageSize totalItems).hasPrevPage = decide (1 < page) ∧
    ((NewPaginationResponse page pageSize totalItems).hasNextPage = true →
        (NewPaginationResponse page pageSize totalItems).nextPage = some (page + 1)) ∧
    ((NewPaginationResponse page pageSize totalItems).hasNextPage = false →
        (NewPaginationResponse page pageSize totalItems).nextPage = none) ∧
    ((NewPaginationResponse page pageSize totalItems).hasPrevPage = true →
        (NewPaginationResponse page pageSize totalItems).previousPage = some (page - 1)) ∧
    ((NewPaginationResponse page pageSize totalItems).hasPrevPage = false →
        (NewPaginationResponse page pageSize totalItems).previousPage = none) := by
  refine ⟨?_, ?_, rfl, rfl, ?_, ?_, ?_, ?_⟩
  · simpa [NewPaginationResponse] using goIntDiv_ceil totalItems pageSize ht hs1
  · intro h
    subst h
    show goIntDiv (0 + pageSize - 1) pageSize = 0
    rw [goIntDiv_eq_ediv _ _ (by omega) (by omega)]
    exact Int.ediv_eq_zero_of_lt (by omega) (by omega)
  · intro h
    simp only [NewPaginationResponse] at h ⊢
    simp [h]
  · intro h
    simp only [NewPaginationResponse] at h ⊢
    simp [h]
  · intro h
    simp only [NewPaginationResponse] at h ⊢
    simp [h]
  · intro h
    simp only [NewPaginationResponse] at h ⊢
    simp [h]

/-- Closed instance of C4 at page 1, pageSize 10, 25 items: three pages,
a next page and no previous page. -/
theorem C4_build_response_witness :
    (NewPaginationResponse 1 10 25).totalPages = ⌈(25 : ℚ) / (10 : ℚ)⌉ ∧
    (NewPaginationResponse 1 10 25).totalPages = 3 ∧
    (NewPaginationResponse 1 10 25).nextPage = some 2 ∧
    (NewPaginationResponse 1 10 25).previousPage = none := by
  have h := C4_build_response 1 10 25 (by decide) (by decide) (by decide) (by decide)
  exact ⟨h.1, by decide, h.2.2.2.2.1 (by decide), h.2.2.2.2.2.2.2 (by decide)⟩

/-- C5 as frozen is false: with zero total items but current page 2, the
code still reports a previous page, because hasPrevPage is computed as
page > 1 independently of the item count. -/
theorem C5_zero_items_counterexample :
    (NewPaginationResponse 2 10 0).totalPages = 0 ∧
    (NewPaginationResponse 2 10 0).hasNextPage = false ∧
    (NewPaginationResponse 2 10 0).hasPrevPage = true := by
  decide

/-- C5 amended: with zero total items (any normalized request) the
metadata has totalPages = 0 and hasNextPage = false; hasPrevPage equals
page > 1, so it is false exactly for page 1. -/
theorem C5_zero_items_amended (page pageSize : Int)
    (hp : 1 ≤ page) (hs1 : 1 ≤ pageSize) (hs2 : pageSize ≤ 100) :
    (NewPaginationResponse page pageSize 0).totalPages = 0 ∧
    (NewPaginationResponse page pageSize 0).hasNextPage = false ∧
    (NewPaginationResponse page pageSize 0).hasPrevPage = decide (1 < page) ∧
    (page = 1 → (NewPaginationResponse page pageSize 0).hasPrevPage = false) := by
  have h0 : goIntDiv (0 + pageSize - 1) pageSize = 0 := by
    rw [goIntDiv_eq_ediv _ _ (by omega) (by omega)]
    exact Int.ediv_eq_zero_of_lt (by omega) (by omega)
  refine ⟨h0, ?_, rfl, ?_⟩
  · show decide (page < goIntDiv (0 + pageSize - 1) pageSize) = false
    rw [h0]
    simp only [decide_eq_false_iff_not]
    omega
  · intro h
    subst h
    rfl

/-- Closed instance of the amended C5: page 1 of an empty listing has no
previous page, page 2 of an empty listing still reports one. -/
theorem C5_zero_items_amended_witness :
    (NewPaginationResponse 1 10 0).totalPages = 0 ∧
    (NewPaginationResponse 1 10 0).hasPrevPage = false ∧
    (NewPaginationResponse 2 10 0).hasPrevPage = true := by
  have h1 := C5_zero_items_amended 1 10 (by decide) (by decide) (by decide)
  have h2 := C5_zero_items_amended 2 10 (by decide) (by decide) (by decide)
  exact ⟨h1.1, h1.2.2.2 rfl, h2.2.2.1.trans (by decide)⟩

/-- Manga entity from internal/core/domain/manga_dto.go: id (uint,
primary key), name, price (float64, embedded as ℚ), isActive,
userCreated (owner uint), timestamps, and the GORM soft-delete marker. -/
structure Manga where
  id : Nat
  name : String
  price : Rat
  isActive : Bool
  userCreated : Nat
  createdAt : Nat
  updatedAt : Nat
  deletedAt : Option Nat
  deriving Repr, DecidableEq

/-- Manga.IsValid: name non-empty, price ≥ 0, owner id > 0. -/
def Manga.IsValid (m : Manga) : Bool :=
  m.name != "" && decide (m.price ≥ 0) && decide (m.userCreated > 0)

/-- Manga.Sanitize: rebuilds the entity without the DeletedAt field, which
therefore takes the zero value (NULL / none). -/
def Manga.Sanitize (m : Manga) : Manga :=
  { id := m.id
    name := m.name
    price := m.price
    isActive := m.isActive
    userCreated := m.userCreated
    createdAt := m.createdAt
    updatedAt := m.updatedAt
    deletedAt := none }

/-- User entity from internal/core/domain/user.go. -/
structure User where
  id : Nat
  name : String
  email : String
  password : String
  createdAt : Nat
  updatedAt : Nat
  deletedAt : Option Nat
  deriving Repr, DecidableEq

/-- User.Sanitize: rebuilds the entity without the Password and DeletedAt
fields, which take their zero values. -/
def User.Sanitize (u : User) : User :=
  { id := u.id
    name := u.name
    email := u.email
    password := ""
    createdAt := u.createdAt
    updatedAt := u.updatedAt
    deletedAt := none }

/-- CreateMangaRequest from manga_dto.go. -/
structure CreateMangaRequest where
  name : String
  price : Rat
  isActive : Bool
  deriving Repr, DecidableEq

/-- UpdateMangaRequest from manga_dto.go. -/
structure UpdateMangaRequest where
  name : String
  price : Rat
  isActive : Bool
  deriving Repr, DecidableEq

/-- Ordering of catalog rows by primary key, used for the store's default
result order. -/
def mangaLe (a b : Manga) : Prop := a.id ≤ b.id

instance : DecidableRel mangaLe := fun a b => Nat.decLe a.id b.id

instance : IsTotal Manga mangaLe := ⟨fun a b => Nat.le_total a.id b.id⟩

instance : IsTrans Manga mangaLe := ⟨fun _ _ _ hab hbc => Nat.le_trans hab hbc⟩

/-- Modelled from the spec: the GORM default query scope excludes
soft-deleted rows (`deleted_at IS NULL`); src contains only the
repository calls, the scope itself is ORM behavior. -/
def visibleRows (db : List Manga) : List Manga :=
  db.filter (fun m => m.deletedAt.isNone)

/-- Modelled from the spec: result rows come back ordered by primary key
ascending, ties in insertion order (the stable default order of the
store); embedded as a stable insertion sort on the id. -/
def sortById (rows : List Manga) : List Manga :=
  List.insertionSort mangaLe rows

/-- Modelled from the spec: SQL OFFSET/LIMIT applied to an ordered result
set; a nonpositive offset skips nothing. All callers pass a normalized
limit ≥ 1. -/
def dbOffsetLimit (rows : List Manga) (offset limit : Int) : List Manga :=
  (rows.drop offset.toNat).take limit.toNat

/-- mangaRepository.GetByID (repository file, `db.First(&manga, id)`):
first visible row with the given primary key, or the literal
"manga not found" error. The pure store model cannot fail, so the
generic "failed to get manga" branch is unreachable here. -/
def mangaRepository.GetByID (db : List Manga) (id : Nat) : Except String Manga :=
  match (sortById (visibleRows db)).find? (fun m => m.id == id) with
  | some m => Except.ok m
  | none => Except.error "manga not found"

/-- mangaRepository.Create (`db.Create(manga)`): GORM assigns the
auto-increment primary key and the timestamps, then inserts the row;
the fresh key and clock value are passed explicitly. Returns the new
store contents and the row as GORM leaves it in the passed struct. -/
def mangaRepository.Create (db : List Manga) (m : Manga) (newID now : Nat) :
    List Manga × Manga :=
  let row := { m with id := newID, createdAt := now, updatedAt := now }
  (db ++ [row], row)

/-- mangaRepository.Update (`db.Save(manga)`): persists every field of the
struct under its primary key; GORM also touches UpdatedAt on the struct.
Returns the new store contents and the saved row. -/
def mangaRepository.Update (db : List Manga) (m : Manga) (now : Nat) :
    List Manga × Manga :=
  let saved := { m with updatedAt := now }
  (db.map (fun r => if r.id = saved.id then saved else r), saved)

/-- mangaRepository.Delete (`db.Delete(&Manga{}, id)`): soft delete, sets
the deletion marker on the visible row with the given key. -/
def mangaRepository.Delete (db : List Manga) (id now : Nat) : List Manga :=
  db.map (fun r =>
    if r.id = id ∧ r.deletedAt = none then { r with deletedAt := some now } else r)

/-- mangaRepository.ListPaginated: counts all visible rows, then fetches
the window at [offset, offset + limit) of the ordered visible rows. -/
def mangaRepository.ListPaginated (db : List Manga) (p : PaginationRequest) :
    List Manga × Int :=
  let total : Int := ((visibleRows db).length : Int)
  (dbOffsetLimit (sortById (visibleRows db)) p.GetOffset p.GetLimit, total)

/-- mangaRepository.GetActiveMangasPaginated: same with the
`is_active = true` condition on both the count and the fetch. -/
def mangaRepository.GetActiveMangasPaginated (db : List Manga) (p : PaginationRequest) :
    List Manga × Int :=
  let total : Int := (((visibleRows db).filter (fun m => m.isActive)).length : Int)
  (dbOffsetLimit (sortById ((visibleRows db).filter (fun m => m.isActive)))
      p.GetOffset p.GetLimit,
   total)

/-- The local manga value built by mangaService.CreateManga before
validation: request fields plus the acting user as owner; every other
field is at its zero value until GORM fills it in. -/
def mangaService.newManga (req : CreateMangaRequest) (userID : Nat) : Manga :=
  { id := 0
    name := req.name
    price := req.price
    isActive := req.isActive
    userCreated := userID
    createdAt := 0
    updatedAt := 0
    deletedAt := none }

/-- mangaService.CreateManga: builds the entity, rejects it when IsValid
fails, otherwise stores it and returns the sanitized stored row. -/
def mangaService.CreateManga (db : List Manga) (req : CreateMangaRequest)
    (userID newID now : Nat) : List Manga × Except String Manga :=
  let manga := mangaService.newManga req userID
  if !manga.IsValid then
    (db, Except.error "invalid manga data")
  else
    let created := mangaRepository.Create db manga newID now
    (created.1, Except.ok created.2.Sanitize)

/-- mangaService.UpdateManga: fetches the row, rejects the call unless the
acting user is the owner, then overwrites Name, Price and IsActive and
saves. Returns the sanitized saved row. -/
def mangaService.UpdateManga (db : List Manga) (id : Nat) (req : UpdateMangaRequest)
    (userID now : Nat) : List Manga × Except String Manga :=
  match mangaRepository.GetByID db id with
  | Except.error e => (db, Except.error e)
  | Except.ok manga =>
    if manga.userCreated ≠ userID then
      (db, Except.error "access denied: you can only update your own manga")
    else
      let manga := { manga with name := req.name, price := req.price, isActive := req.isActive }
      let updated := mangaRepository.Update db manga now
      (updated.1, Except.ok updated.2.Sanitize)

/-- mangaService.DeleteManga: fetches the row, rejects the call unless the
acting user is the owner, then soft-deletes it. -/
def mangaService.DeleteManga (db : List Manga) (id userID now : Nat) :
    List Manga × Except String Unit :=
  match mangaRepository.GetByID db id with
  | Except.error e => (db, Except.error e)
  | Except.ok manga =>
    if manga.userCreated ≠ userID then
      (db, Except.error "access denied: you can only delete your own manga")
    else
      (mangaRepository.Delete db id now, Except.ok ())

/-- mangaService.GetMangasPaginated: repository window, sanitized, plus
metadata built from the request and the true total. The repository error
branch is unreachable in the pure store model. -/
def mangaService.GetMangasPaginated (db : List Manga) (p : PaginationRequest) :
    PaginatedResult Manga :=
  let fetched := mangaRepository.ListPaginated db p
  { data := fetched.1.map Manga.Sanitize
    pagination := NewPaginationResponse p.page p.pageSize fetched.2 }

/-- mangaService.GetActiveMangasPaginated: same over the active-only
query. -/
def mangaService.GetActiveMangasPaginated (db : List Manga) (p : PaginationRequest) :
    PaginatedResult Manga :=
  let fetched := mangaRepository.GetActiveMangasPaginated db p
  { data := fetched.1.map Manga.Sanitize
    pagination := NewPaginationResponse p.page p.pageSize fetched.2 }

/-- C6: for a normalized request, the offset handed to the store window
is (page - 1) * pageSize and the limit is pageSize — both in the
accessors and in the repository query that consumes them — and in
particular page 3 with page size 10 starts at offset 20. -/
theorem C6_offset_limit (db : List Manga) (r : PaginationRequest)
    (hp : 1 ≤ r.page) (hs1 : 1 ≤ r.pageSize) (hs2 : r.pageSize ≤ 100) :
    r.GetOffset = (r.page - 1) * r.pageSize ∧
    r.GetLimit = r.pageSize ∧
    (mangaRepository.ListPaginated db r).1 =
      ((sortById (visibleRows db)).drop ((r.page - 1) * r.pageSize).toNat).take
        r.pageSize.toNat ∧
    (NewPaginationRequest 3 10).GetOffset = 20 :=
  ⟨rfl, rfl, rfl, by decide⟩

/-- Closed instance of C6 at page 3, page size 10. -/
theorem C6_offset_limit_witness :
    ({ page := 3, pageSize := 10 } : PaginationRequest).GetOffset = (3 - 1) * 10 ∧
    (NewPaginationRequest 3 10).GetOffset = 20 := by
  have h := C6_offset_limit [] { page := 3, pageSize := 10 } (by decide) (by decide) (by decide)
  exact ⟨h.1, h.2.2.2⟩

/-- C9: Sanitize is pure and idempotent; the sanitized user carries an
empty password hash and a cleared deletion marker, the sanitized catalog
item a cleared deletion marker, and every other field is preserved. -/
theorem C9_sanitize_idempotent (u : User) (m : Manga) :
    u.Sanitize.password = "" ∧
    u.Sanitize.deletedAt = none ∧
    u.Sanitize.Sanitize = u.Sanitize ∧
    u.Sanitize.id = u.id ∧ u.Sanitize.name = u.name ∧ u.Sanitize.email = u.email ∧
    u.Sanitize.createdAt = u.createdAt ∧ u.Sanitize.updatedAt = u.updatedAt ∧
    m.Sanitize.deletedAt = none ∧
    m.Sanitize.Sanitize = m.Sanitize ∧
    m.Sanitize.id = m.id ∧ m.Sanitize.name = m.name ∧ m.Sanitize.price = m.price ∧
    m.Sanitize.isActive = m.isActive ∧ m.Sanitize.userCreated = m.userCreated ∧
    m.Sanitize.createdAt = m.createdAt ∧ m.Sanitize.updatedAt = m.updatedAt :=
  ⟨rfl, rfl, rfl, rfl, rfl, rfl, rfl, rfl, rfl, rfl, rfl, rfl, rfl, rfl, rfl, rfl, rfl⟩

/-- A concrete stored catalog item owned by user 7, used to instantiate
the hypothetical theorems on explicit inputs. -/
def sampleManga : Manga :=
  { id := 1
    name := "One Piece"
    price := 100
    isActive := true
    userCreated := 7
    createdAt := 0
    updatedAt := 0
    deletedAt := none }

/-- A one-row store holding sampleManga. -/
def sampleDb : List Manga := [sampleManga]

/-- A well-formed update request. -/
def sampleUpdateReq : UpdateMangaRequest :=
  { name := "Naruto", price := 50, isActive := false }

/-- An update request violating the creation invariant (empty name). -/
def badUpdateReq : UpdateMangaRequest :=
  { name := "", price := 50, isActive := true }

/-- C1: once the row is fetched, a mismatched acting user makes both
UpdateManga and DeleteManga return the access-denied error with the store
untouched, and the owner's calls succeed. -/
theorem C1_ownership_guard (db : List Manga) (id : Nat) (req : UpdateMangaRequest)
    (userID now : Nat) (m : Manga)
    (hfind : mangaRepository.GetByID db id = Except.ok m) :
    (m.userCreated ≠ userID →
      mangaService.UpdateManga db id req userID now =
        (db, Except.error "access denied: you can only update your own manga") ∧
      mangaService.DeleteManga db id userID now =
        (db, Except.error "access denied: you can only delete your own manga")) ∧
    (m.userCreated = userID →
      (∃ s, (mangaService.UpdateManga db id req userID now).2 = Except.ok s) ∧
      (mangaService.DeleteManga db id userID now).2 = Except.ok ()) := by
  unfold mangaService.UpdateManga mangaService.DeleteManga
  rw [hfind]
  constructor
  · intro hne
    simp [hne]
  · intro heq
    simp [heq]

/-- Closed instance of C1 on the one-row store: user 9 is rejected with
the store unchanged, owner 7 succeeds. -/
theorem C1_ownership_guard_witness :
    mangaService.UpdateManga sampleDb 1 sampleUpdateReq 9 5 =
      (sampleDb, Except.error "access denied: you can only update your own manga") ∧
    mangaService.DeleteManga sampleDb 1 9 5 =
      (sampleDb, Except.error "access denied: you can only delete your own manga") ∧
    (∃ s, (mangaService.UpdateManga sampleDb 1 sampleUpdateReq 7 5).2 = Except.ok s) ∧
    (mangaService.DeleteManga sampleDb 1 7 5).2 = Except.ok () := by
  have h9 := C1_ownership_guard sampleDb 1 sampleUpdateReq 9 5 sampleManga rfl
  have h7 := C1_ownership_guard sampleDb 1 sampleUpdateReq 7 5 sampleManga rfl
  exact ⟨(h9.1 (by decide)).1, (h9.1 (by decide)).2, (h7.2 rfl).1, (h7.2 rfl).2⟩

/-- C2 as frozen is false: UpdateManga never re-validates, so the owner
can update a valid stored item to one with an empty name, and the service
stores it while reporting success. -/
theorem C2_invariant_counterexample :
    mangaService.UpdateManga sampleDb 1 badUpdateReq 7 5 =
      ([ { id := 1, name := "", price := 50, isActive := true,
           userCreated := 7, createdAt := 0, updatedAt := 5, deletedAt := none } ],
       Except.ok (Manga.Sanitize
         { id := 1, name := "", price := 50, isActive := true,
           userCreated := 7, createdAt := 0, updatedAt := 5, deletedAt := none })) ∧
    Manga.IsValid
      { id := 1, name := "", price := 50, isActive := true,
        userCreated := 7, createdAt := 0, updatedAt := 5, deletedAt := none } = false :=
  ⟨rfl, rfl⟩

/-- C2 amended: CreateManga rejects data violating the invariant with the
"invalid manga data" error and the store untouched, and every row it adds
satisfies the invariant; the invariant is guaranteed at creation only,
since UpdateManga does not re-validate. -/
theorem C2_create_invariant_amended (db : List Manga) (req : CreateMangaRequest)
    (userID newID now : Nat) :
    ((mangaService.newManga req userID).IsValid = false →
      mangaService.CreateManga db req userID newID now =
        (db, Except.error "invalid manga data")) ∧
    ((mangaService.newManga req userID).IsValid = true →
      (∃ s, (mangaService.CreateManga db req userID newID now).2 = Except.ok s) ∧
      ∀ m ∈ (mangaService.CreateManga db req userID newID now).1,
        m ∈ db ∨ m.IsValid = true) := by
  constructor
  · intro h
    unfold mangaService.CreateManga
    simp [h]
  · intro h
    constructor
    · unfold mangaService.CreateManga
      simp [h]
    · intro m hm
      unfold mangaService.CreateManga at hm
      simp [h] at hm
      rcases List.mem_append.1 hm with hm | hm
      · exact Or.inl hm
      · refine Or.inr ?_
        rw [List.mem_singleton.1 hm]
        exact h

/-- Closed instances of the amended C2: an empty-name request is rejected
on the empty store, a well-formed one stores only valid rows. -/
theorem C2_create_invariant_amended_witness :
    mangaService.CreateManga [] { name := "", price := 100, isActive := true } 7 1 0 =
      ([], Except.error "invalid manga data") ∧
    ∀ m ∈ (mangaService.CreateManga []
        { name := "One Piece", price := 100, isActive := true } 7 1 0).1,
      m ∈ ([] : List Manga) ∨ m.IsValid = true := by
  have hbad := C2_create_invariant_amended []
    { name := "", price := 100, isActive := true } 7 1 0
  have hgood := C2_create_invariant_amended []
    { name := "One Piece", price := 100, isActive := true } 7 1 0
  exact ⟨hbad.1 (by decide), (hgood.2 (by decide)).2⟩

/-- A row returned by GetByID is a row of the store and carries the
requested primary key. -/
theorem GetByID_ok_mem (db : List Manga) (id : Nat) (m : Manga)
    (h : mangaRepository.GetByID db id = Except.ok m) :
    m ∈ db ∧ m.id = id := by
  unfold mangaRepository.GetByID at h
  cases hfind : (sortById (visibleRows db)).find? (fun x => x.id == id) with
  | none =>
    rw [hfind] at h
    cases h
  | some y =>
    rw [hfind] at h
    injection h with hym
    subst hym
    have hmem := List.mem_of_find?_eq_some hfind
    have hpred := List.find?_some hfind
    have hy : y ∈ visibleRows db :=
      ((List.perm_insertionSort mangaLe (visibleRows db)).mem_iff).1 hmem
    exact ⟨List.mem_of_mem_filter hy, by simpa using hpred⟩

/-- C10: an owner-approved update replaces exactly Name, Price and
IsActive (plus the store-maintained UpdatedAt) on the row with the
fetched primary key; the replacement row keeps the fetched ID, owner,
CreatedAt and deletion marker, every other row is untouched, and every
row of the new store inherits key, owner, creation time and deletion
marker from a row of the old store — so ownership can never change. -/
theorem C10_update_frame (db : List Manga) (id : Nat) (req : UpdateMangaRequest)
    (userID now : Nat) (m : Manga)
    (hfind : mangaRepository.GetByID db id = Except.ok m)
    (hown : m.userCreated = userID) :
    mangaService.UpdateManga db id req userID now =
      (db.map (fun r => if r.id = m.id then
          { m with name := req.name, price := req.price,
                   isActive := req.isActive, updatedAt := now }
        else r),
       Except.ok (Manga.Sanitize
         { m with name := req.name, price := req.price,
                  isActive := req.isActive, updatedAt := now })) ∧
    ({ m with name := req.name, price := req.price,
              isActive := req.isActive, updatedAt := now } : Manga).id = m.id ∧
    ({ m with name := req.name, price := req.price,
              isActive := req.isActive, updatedAt := now } : Manga).userCreated
        = m.userCreated ∧
    ({ m with name := req.name, price := req.price,
              isActive := req.isActive, updatedAt := now } : Manga).createdAt
        = m.createdAt ∧
    ({ m with name := req.name, price := req.price,
              isActive := req.isActive, updatedAt := now } : Manga).deletedAt
        = m.deletedAt ∧
    (∀ r ∈ db, r.id ≠ m.id → r ∈ (mangaService.UpdateManga db id req userID now).1) ∧
    (∀ r' ∈ (mangaService.UpdateManga db id req userID now).1,
      ∃ r ∈ db, r'.id = r.id ∧ r'.userCreated = r.userCreated ∧
        r'.createdAt = r.createdAt ∧ r'.deletedAt = r.deletedAt) := by
  have hmem := (GetByID_ok_mem db id m hfind).1
  have hmain : mangaService.UpdateManga db id req userID now =
      (db.map (fun r => if r.id = m.id then
          { m with name := req.name, price := req.price,
                   isActive := req.isActive, updatedAt := now }
        else r),
       Except.ok (Manga.Sanitize
         { m with name := req.name, price := req.price,
                  isActive := req.isActive, updatedAt := now })) := by
    unfold mangaService.UpdateManga
    rw [hfind]
    simp [hown, mangaRepository.Update]
  refine ⟨hmain, rfl, rfl, rfl, rfl, ?_, ?_⟩
  · intro r hr hne
    rw [hmain]
    exact List.mem_map.2 ⟨r, hr, by simp [hne]⟩
  · intro r' hr'
    rw [hmain] at hr'
    rcases List.mem_map.1 hr' with ⟨r, hr, hEq⟩
    by_cases hid : r.id = m.id
    · refine ⟨m, hmem, ?_⟩
      rw [← hEq]
      simp [hid]
    · refine ⟨r, hr, ?_⟩
      rw [← hEq]
      simp [hid]

/-- Closed instance of C10 on the one-row store. -/
theorem C10_update_frame_witness :
    mangaService.UpdateManga sampleDb 1 sampleUpdateReq 7 5 =
      (sampleDb.map (fun r => if r.id = sampleManga.id then
          { sampleManga with name := sampleUpdateReq.name,
                             price := sampleUpdateReq.price,
                             isActive := sampleUpdateReq.isActive, updatedAt := 5 }
        else r),
       Except.ok (Manga.Sanitize
         { sampleManga with name := sampleUpdateReq.name,
                            price := sampleUpdateReq.price,
                            isActive := sampleUpdateReq.isActive, updatedAt := 5 })) :=
  (C10_update_frame sampleDb 1 sampleUpdateReq 7 5 sampleManga rfl rfl).1

/-- A window starting at or beyond the row count is empty. -/
theorem beyond_window_empty (rows : List Manga) (offset limit : Int)
    (hoff : (rows.length : Int) ≤ offset) :
    dbOffsetLimit (sortById rows) offset limit = [] := by
  unfold dbOffsetLimit
  have hlen : (sortById rows).length = rows.length :=
    (List.perm_insertionSort mangaLe rows).length_eq
  have hle : (sortById rows).length ≤ offset.toNat := by
    rw [hlen]
    omega
  rw [List.drop_eq_nil_of_le hle]
  simp

/-- When the count fits before the requested page, the ceiling of
count / pageSize stays below the page number. -/
theorem goIntDiv_ceil_le (t s p : Int) (ht : 0 ≤ t) (hs : 1 ≤ s)
    (h : t ≤ (p - 1) * s) : goIntDiv (t + s - 1) s ≤ p - 1 := by
  rw [goIntDiv_ceil t s ht hs, Int.ceil_le]
  have hsq : (0 : ℚ) < (s : ℚ) := by exact_mod_cast (by omega : (0 : Int) < s)
  rw [div_le_iff₀ hsq]
  have h2 : ((t : Int) : ℚ) ≤ (((p - 1) * s : Int) : ℚ) := by exact_mod_cast h
  push_cast at h2 ⊢
  linarith

/-- C7: a normalized request whose offset is at or beyond the number of
matching rows yields an empty data sequence, while the metadata still
carries the true total and its ceiling page count and reports no next
page — for the unfiltered listing and the active-only listing alike. -/
theorem C7_offset_beyond_total (db : List Manga) (r : PaginationRequest)
    (hp : 1 ≤ r.page) (hs1 : 1 ≤ r.pageSize) (hs2 : r.pageSize ≤ 100) :
    (((visibleRows db).length : Int) ≤ r.GetOffset →
      (mangaService.GetMangasPaginated db r).data = [] ∧
      (mangaService.GetMangasPaginated db r).pagination.totalItems
          = ((visibleRows db).length : Int) ∧
      (mangaService.GetMangasPaginated db r).pagination.totalPages
          = ⌈(((visibleRows db).length : Int) : ℚ) / (r.pageSize : ℚ)⌉ ∧
      (mangaService.GetMangasPaginated db r).pagination.hasNextPage = false) ∧
    ((((visibleRows db).filter (fun m => m.isActive)).length : Int) ≤ r.GetOffset →
      (mangaService.GetActiveMangasPaginated db r).data = [] ∧
      (mangaService.GetActiveMangasPaginated db r).pagination.totalItems
          = (((visibleRows db).filter (fun m => m.isActive)).length : Int) ∧
      (mangaService.GetActiveMangasPaginated db r).pagination.totalPages
          = ⌈((((visibleRows db).filter (fun m => m.isActive)).length : Int) : ℚ)
              / (r.pageSize : ℚ)⌉ ∧
      (mangaService.GetActiveMangasPaginated db r).pagination.hasNextPage = false) := by
  constructor
  · intro hoff
    refine ⟨?_, rfl, ?_, ?_⟩
    · show (dbOffsetLimit (sortById (visibleRows db)) r.GetOffset r.GetLimit).map
        Manga.Sanitize = []
      rw [beyond_window_empty (visibleRows db) r.GetOffset r.GetLimit hoff]
      rfl
    · exact goIntDiv_ceil _ _ (Int.ofNat_nonneg _) hs1
    · show decide (r.page <
        goIntDiv (((visibleRows db).length : Int) + r.pageSize - 1) r.pageSize) = false
      have hle := goIntDiv_ceil_le ((visibleRows db).length : Int) r.pageSize r.page
        (Int.ofNat_nonneg _) hs1 hoff
      simp only [decide_eq_false_iff_not]
      omega
  · intro hoff
    refine ⟨?_, rfl, ?_, ?_⟩
    · show (dbOffsetLimit (sortById ((visibleRows db).filter (fun m => m.isActive)))
        r.GetOffset r.GetLimit).map Manga.Sanitize = []
      rw [beyond_window_empty ((visibleRows db).filter (fun m => m.isActive))
        r.GetOffset r.GetLimit hoff]
      rfl
    · exact goIntDiv_ceil _ _ (Int.ofNat_nonneg _) hs1
    · show decide (r.page <
        goIntDiv ((((visibleRows db).filter (fun m => m.isActive)).length : Int)
          + r.pageSize - 1) r.pageSize) = false
      have hle := goIntDiv_ceil_le
        (((visibleRows db).filter (fun m => m.isActive)).length : Int) r.pageSize r.page
        (Int.ofNat_nonneg _) hs1 hoff
      simp only [decide_eq_false_iff_not]
      omega

/-- A 25-row store of active items, all owned by user 7. -/
def sampleDb25 : List Manga :=
  (List.range 25).map (fun i =>
    { id := i + 1, name := "m", price := 100, isActive := true,
      userCreated := 7, createdAt := 0, updatedAt := 0, deletedAt := none })

/-- Closed instance of C7: page 999 at page size 10 over 25 items gives
no data, total 25, three pages and no next page. -/
theorem C7_offset_beyond_total_witness :
    (mangaService.GetMangasPaginated sampleDb25 (NewPaginationRequest 999 10)).data = [] ∧
    (mangaService.GetMangasPaginated sampleDb25
        (NewPaginationRequest 999 10)).pagination.totalItems = 25 ∧
    (mangaService.GetMangasPaginated sampleDb25
        (NewPaginationRequest 999 10)).pagination.totalPages = 3 ∧
    (mangaService.GetMangasPaginated sampleDb25
        (NewPaginationRequest 999 10)).pagination.hasNextPage = false := by
  have h := C7_offset_beyond_total sampleDb25 (NewPaginationRequest 999 10)
    (by decide) (by decide) (by decide)
  have h1 := h.1 (by decide)
  exact ⟨h1.1, h1.2.1.trans (by decide), by decide, h1.2.2.2⟩

/-- C8: the data returned by the paginated catalog queries is the
[offset, offset + limit) window of the matching rows in the store's
default order, which is sorted by primary key ascending and is a
permutation of the matching rows (for the unfiltered and the active-only
queries). -/
theorem C8_default_order_slice (db : List Manga) (r : PaginationRequest) :
    (mangaRepository.ListPaginated db r).1 =
      ((sortById (visibleRows db)).drop r.GetOffset.toNat).take r.GetLimit.toNat ∧
    (mangaService.GetMangasPaginated db r).data =
      ((((sortById (visibleRows db)).drop r.GetOffset.toNat).take r.GetLimit.toNat).map
        Manga.Sanitize) ∧
    List.Sorted mangaLe (sortById (visibleRows db)) ∧
    List.Perm (sortById (visibleRows db)) (visibleRows db) ∧
    (mangaRepository.GetActiveMangasPaginated db r).1 =
      ((sortById ((visibleRows db).filter (fun m => m.isActive))).drop
          r.GetOffset.toNat).take r.GetLimit.toNat ∧
    List.Sorted mangaLe (sortById ((visibleRows db).filter (fun m => m.isActive))) ∧
    List.Perm (sortById ((visibleRows db).filter (fun m => m.isActive)))
      ((visibleRows db).filter (fun m => m.isActive)) :=
  ⟨rfl, rfl, List.sorted_insertionSort mangaLe _, List.perm_insertionSort mangaLe _,
   rfl, List.sorted_insertionSort mangaLe _, List.perm_insertionSort mangaLe _⟩

end MyBackend
